import Mathlib

/-!
Verification of src/ssh_cmd.py, a one-function SSH command runner.
Remote text is modelled as lists of characters; the SSH library collaborator
(paramiko) is modelled as an environment giving the outcome of connect and of
exec_command; the runner is embedded as a pure function from that environment
to a trace of its observable effects (commands executed, prints, close calls,
return value).
-/

namespace SshCmd

/-- Character-list model of Python strings. -/
abbrev Str := List Char

/-- Python split on the newline character: splitNl models s.split with
separator chr(10). The empty string splits to one empty piece, and a
trailing newline yields a trailing empty piece, as in Python. -/
def splitNl : Str → List Str
  | [] => [[]]
  | c :: rest =>
    if c = '\n' then [] :: splitNl rest
    else
      match splitNl rest with
      | [] => [[c]]
      | l :: ls => (c :: l) :: ls

/-- Python sep.join DSL counterpart: interleave a separator character between pieces. -/
def joinWith (sep : Char) : List Str → Str
  | [] => []
  | [l] => l
  | l :: l2 :: ls => l ++ sep :: joinWith sep (l2 :: ls)

/-- The literal marker filtered from both streams, Python string of line 24. -/
def sudoTag : Str := ("[sudo]").toList

/-- Python l.startswith applied to the sudo marker. -/
def isSudoLine (l : Str) : Bool := sudoTag.isPrefixOf l

/-- Lines surviving the comprehension of lines 24 and 27 of the source. -/
def keptLines (s : Str) : List Str := (splitNl s).filter (fun l => !isSudoLine l)

/-- The stream post-processing of the source: split on newlines, discard lines
starting with the sudo marker, rejoin the rest in order. -/
def filterSudo (s : Str) : Str := joinWith '\n' (keptLines s)

theorem splitNl_ne_nil (s : Str) : splitNl s ≠ [] := by
  cases s with
  | nil => simp [splitNl]
  | cons c rest =>
    simp only [splitNl]
    split
    · simp
    · split <;> simp

theorem splitNl_no_newline {s : Str} : ∀ l ∈ splitNl s, '\n' ∉ l := by
  induction s with
  | nil =>
    intro l hl
    simp [splitNl] at hl
    simp [hl]
  | cons c rest ih =>
    intro l hl
    simp only [splitNl] at hl
    by_cases hc : c = '\n'
    · rw [if_pos hc] at hl
      rcases List.mem_cons.mp hl with h | h
      · simp [h]
      · exact ih l h
    · rw [if_neg hc] at hl
      cases hsp : splitNl rest with
      | nil => exact absurd hsp (splitNl_ne_nil rest)
      | cons l0 ls =>
        rw [hsp] at hl
        rcases List.mem_cons.mp hl with h | h
        · subst h
          intro hmem
          rcases List.mem_cons.mp hmem with h2 | h2
          · exact hc h2.symm
          · exact ih l0 (by rw [hsp]; exact List.mem_cons_self l0 ls) h2
        · exact ih l (by rw [hsp]; exact List.mem_cons_of_mem l0 h)

theorem splitNl_of_no_newline {l : Str} (h : '\n' ∉ l) : splitNl l = [l] := by
  induction l with
  | nil => rfl
  | cons c rest ih =>
    have hc : ¬ c = '\n' := fun hcc => h (hcc ▸ List.mem_cons_self c rest)
    have hrest : '\n' ∉ rest := fun hm => h (List.mem_cons_of_mem c hm)
    simp only [splitNl, if_neg hc, ih hrest]

theorem splitNl_append_newline {l : Str} (t : Str) (h : '\n' ∉ l) :
    splitNl (l ++ '\n' :: t) = l :: splitNl t := by
  induction l with
  | nil => simp [splitNl]
  | cons c rest ih =>
    have hc : ¬ c = '\n' := fun hcc => h (hcc ▸ List.mem_cons_self c rest)
    have hrest : '\n' ∉ rest := fun hm => h (List.mem_cons_of_mem c hm)
    simp only [List.cons_append, splitNl, if_neg hc, List.append_eq, ih hrest]

theorem splitNl_joinWith :
    ∀ ls : List Str, (∀ l ∈ ls, '\n' ∉ l) → ls ≠ [] →
      splitNl (joinWith '\n' ls) = ls := by
  intro ls
  induction ls with
  | nil => intro _ h; exact absurd rfl h
  | cons l ls ih =>
    intro hnl _
    cases ls with
    | nil => exact splitNl_of_no_newline (hnl l (List.mem_cons_self l []))
    | cons l2 ls2 =>
      have h1 : '\n' ∉ l := hnl l (List.mem_cons_self l _)
      have h2 : ∀ x ∈ l2 :: ls2, '\n' ∉ x :=
        fun x hx => hnl x (List.mem_cons_of_mem l hx)
      simp only [joinWith]
      rw [splitNl_append_newline (joinWith '\n' (l2 :: ls2)) h1,
        ih h2 (List.cons_ne_nil l2 ls2)]

theorem keptLines_not_sudo {s : Str} : ∀ l ∈ keptLines s, isSudoLine l = false := by
  intro l hl
  have := List.of_mem_filter hl
  simpa using this

theorem keptLines_no_newline {s : Str} : ∀ l ∈ keptLines s, '\n' ∉ l :=
  fun l hl => splitNl_no_newline l (List.mem_of_mem_filter hl)

theorem splitNl_filterSudo (s : Str) :
    splitNl (filterSudo s) = if keptLines s = [] then [[]] else keptLines s := by
  by_cases hk : keptLines s = []
  · simp only [filterSudo, hk, joinWith, if_pos hk]
    rfl
  · rw [if_neg hk]
    exact splitNl_joinWith (keptLines s) keptLines_no_newline hk

theorem noSudoLine_filterSudo (s : Str) :
    ∀ l ∈ splitNl (filterSudo s), isSudoLine l = false := by
  intro l hl
  rw [splitNl_filterSudo] at hl
  by_cases hk : keptLines s = []
  · rw [if_pos hk] at hl
    simp at hl
    subst hl
    decide
  · rw [if_neg hk] at hl
    exact keptLines_not_sudo l hl

/-- Message printed on the error channel when an exception is caught, line 33. -/
def errTag : Str := ("Error: ").toList

/-- Command rewriting of line 15: the password is piped literally into sudo -S
ahead of the original command; no rewriting when escalation is off. -/
def rewritten (password command : Str) (use_sudo : Bool) : Str :=
  if use_sudo then
    ("echo ").toList ++ ['\''] ++ password ++ ['\''] ++ (" | sudo -S ").toList ++ command
  else command

/-- Abstract SSH collaborator (the paramiko client): the outcome of connect, and
the outcome of exec_command as a function of the executed command string and the
pty flag. An error value carries the text of the raised exception; a successful
exec carries the decoded stdout text, the decoded stderr text and the exit
status later returned by recv_exit_status. -/
structure Env where
  connect : Except Str Unit
  exec : Str → Bool → Except Str (Str × Str × Int)

/-- Observable trace of one invocation of the runner: how many times connect and
close were called on the client, each exec_command call with its pty flag, each
print payload per channel, and the returned status. -/
structure RunResult where
  connectCalls : Nat
  closeCalls : Nat
  execCalls : List (Str × Bool)
  stdoutEvents : List Str
  stderrEvents : List Str
  ret : Int

/-- Shallow embedding of run_ssh_command, lines 6 to 36 of src/ssh_cmd.py:
connect; if use_sudo, rewrite the command and request a pty; exec_command; print
the filtered stdout whenever the raw stdout is non-empty; print the filtered
stderr when the raw stderr is non-empty and some line survives the filter;
return the remote exit status; any raised exception is caught, printed as an
Error line on stderr, and turns the result into 1; close runs on every path. -/
def run_ssh_command (env : Env) (host username password command : Str)
    (use_sudo : Bool) : RunResult :=
  match env.connect with
  | .error e => ⟨1, 1, [], [], [errTag ++ e], 1⟩
  | .ok _ =>
    match env.exec (rewritten password command use_sudo) use_sudo with
    | .error e =>
      ⟨1, 1, [(rewritten password command use_sudo, use_sudo)], [], [errTag ++ e], 1⟩
    | .ok (output, error, status) =>
      ⟨1, 1, [(rewritten password command use_sudo, use_sudo)],
        if output = [] then [] else [filterSudo output],
        if error = [] then []
        else if keptLines error = [] then [] else [filterSudo error],
        status⟩

/-- Hardcoded host of line 43. -/
def HOST : Str := ("192.168.0.75").toList

/-- Hardcoded username of line 44. -/
def USER : Str := ("admin").toList

/-- Hardcoded password of line 45. -/
def PASS : Str := ("admin").toList

/-- The escalation flag word of the CLI. -/
def sudoFlag : Str := ("--sudo").toList

/-- The usage message of line 40, printed by a bare print call. -/
def usageMsg : Str := ("Usage: python ssh_cmd.py [--sudo] <command>").toList

/-- Observable trace of the process entry point: stdout and stderr print
payloads, every invocation of the runner with the command and flag passed to it,
and the process exit code. -/
structure MainResult where
  stdoutEvents : List Str
  stderrEvents : List Str
  runnerCalls : List (Str × Bool)
  exitCode : Int

/-- Shallow embedding of the main block, lines 38 to 52: sys.argv is prog
followed by args. With no args at all the usage message is printed by a plain
print (stdout) and the process exits 1; otherwise use_sudo is the membership
test of the flag in the whole argv, the flag is removed from args, the rest is
joined with single spaces, and the runner result becomes the exit code. -/
def main_entry (env : Env) (prog : Str) (args : List Str) : MainResult :=
  if args = [] then ⟨[usageMsg], [], [], 1⟩
  else
    let use_sudo : Bool := decide (sudoFlag ∈ prog :: args)
    let command : Str := joinWith ' ' (args.filter (fun a => a ≠ sudoFlag))
    let r := run_ssh_command env HOST USER PASS command use_sudo
    ⟨r.stdoutEvents, r.stderrEvents, [(command, use_sudo)], r.ret⟩

theorem keptLines_filterSudo (s : Str) (hk : keptLines s ≠ []) :
    keptLines (filterSudo s) = keptLines s := by
  conv_lhs => rw [keptLines,
    show splitNl (filterSudo s) = keptLines s from
      (splitNl_filterSudo s).trans (if_neg hk)]
  rw [List.filter_eq_self]
  intro a ha
  simp [keptLines_not_sudo a ha]

/-- C10: the sudo-prompt filtering transformation is idempotent: filtering an
already-filtered string changes nothing. -/
theorem filterSudo_idempotent (s : Str) : filterSudo (filterSudo s) = filterSudo s := by
  by_cases hk : keptLines s = []
  · have h0 : filterSudo s = [] := by
      simp only [filterSudo, hk, joinWith]
    rw [h0]
    decide
  · conv_lhs => rw [filterSudo]
    rw [keptLines_filterSudo s hk]
    rfl

/-- Environment whose connect succeeds and whose exec always succeeds with the
given streams and status. -/
def envOk (output error : Str) (status : Int) : Env :=
  ⟨.ok (), fun _ _ => .ok (output, error, status)⟩

/-- Environment whose connect raises the given exception. -/
def envDown (e : Str) : Env := ⟨.error e, fun _ _ => .error e⟩

/-- Environment whose connect succeeds but whose exec raises. -/
def envExecFail (e : Str) : Env := ⟨.ok (), fun _ _ => .error e⟩

/-- C1: whenever the escalation flag is true and the connection succeeds, the
single command passed to remote execution is exactly the concatenation of
echo-open-quote, the password, close-quote-pipe-sudo-dash-S, and the command,
and a pseudo-terminal is requested; no escaping is applied to password or
command. -/
theorem sudo_escalation_command_exact (env : Env)
    (host username password command : Str) (hc : env.connect = .ok ()) :
    (run_ssh_command env host username password command true).execCalls =
      [(("echo ").toList ++ ['\''] ++ password ++ ['\''] ++
          (" | sudo -S ").toList ++ command, true)] := by
  unfold run_ssh_command
  rw [hc]
  cases hE : env.exec (rewritten password command true) true with
  | error e => rfl
  | ok v =>
    obtain ⟨output, error, status⟩ := v
    rfl

theorem sudo_escalation_command_exact_witness :
    (run_ssh_command (envOk [] [] 0) HOST USER PASS (("whoami").toList) true).execCalls =
      [(("echo ").toList ++ ['\''] ++ PASS ++ ['\''] ++
          (" | sudo -S ").toList ++ ("whoami").toList, true)] :=
  sudo_escalation_command_exact (envOk [] [] 0) HOST USER PASS (("whoami").toList) rfl

/-- C2: whenever the escalation flag is false and the connection succeeds, the
single command passed to remote execution is the input command unchanged, and
no pseudo-terminal is requested. -/
theorem plain_command_unchanged (env : Env)
    (host username password command : Str) (hc : env.connect = .ok ()) :
    (run_ssh_command env host username password command false).execCalls =
      [(command, false)] := by
  unfold run_ssh_command
  rw [hc]
  cases hE : env.exec (rewritten password command false) false with
  | error e => rfl
  | ok v =>
    obtain ⟨output, error, status⟩ := v
    rfl

theorem plain_command_unchanged_witness :
    (run_ssh_command (envOk [] [] 0) HOST USER PASS (("ls /tmp").toList) false).execCalls =
      [(("ls /tmp").toList, false)] :=
  plain_command_unchanged (envOk [] [] 0) HOST USER PASS (("ls /tmp").toList) rfl

/-- C5: every failure raised during connect or execution is caught; exactly one
line is written to the error channel, it begins with the Error tag, and the
fixed failure status 1 is returned instead of a remote exit status. -/
theorem failure_reported_once_status_one (env : Env)
    (host username password command : Str) (use_sudo : Bool) (e : Str)
    (hfail : env.connect = .error e ∨
      (env.connect = .ok () ∧
        env.exec (rewritten password command use_sudo) use_sudo = .error e)) :
    (run_ssh_command env host username password command use_sudo).stderrEvents =
      [errTag ++ e] ∧
    errTag <+: errTag ++ e ∧
    (run_ssh_command env host username password command use_sudo).ret = 1 := by
  rcases hfail with h | ⟨h1, h2⟩
  · unfold run_ssh_command
    rw [h]
    exact ⟨rfl, ⟨e, rfl⟩, rfl⟩
  · unfold run_ssh_command
    rw [h1, h2]
    exact ⟨rfl, ⟨e, rfl⟩, rfl⟩

theorem failure_reported_once_status_one_witness :
    (run_ssh_command (envExecFail (("timed out").toList)) HOST USER PASS
        (("ls").toList) false).stderrEvents = [errTag ++ ("timed out").toList] ∧
    errTag <+: errTag ++ ("timed out").toList ∧
    (run_ssh_command (envExecFail (("timed out").toList)) HOST USER PASS
        (("ls").toList) false).ret = 1 :=
  failure_reported_once_status_one (envExecFail (("timed out").toList)) HOST USER
    PASS (("ls").toList) false (("timed out").toList) (Or.inr ⟨rfl, rfl⟩)

/-- C6: every invocation opens the connection exactly once and closes it exactly
once, on every exit path: normal return, connect failure, execution failure. -/
theorem connection_opened_closed_once (env : Env)
    (host username password command : Str) (use_sudo : Bool) :
    (run_ssh_command env host username password command use_sudo).connectCalls = 1 ∧
    (run_ssh_command env host username password command use_sudo).closeCalls = 1 := by
  unfold run_ssh_command
  cases env.connect with
  | error e => exact ⟨rfl, rfl⟩
  | ok u =>
    cases hE : env.exec (rewritten password command use_sudo) use_sudo with
    | error e => exact ⟨rfl, rfl⟩
    | ok v =>
      obtain ⟨output, error, status⟩ := v
      exact ⟨rfl, rfl⟩

/-- C7: when connect fails, the remote command is never executed, the status is
1, and the one line on the error channel begins with the Error tag. -/
theorem connect_failure_no_exec (env : Env)
    (host username password command : Str) (use_sudo : Bool) (e : Str)
    (hc : env.connect = .error e) :
    (run_ssh_command env host username password command use_sudo).execCalls = [] ∧
    (run_ssh_command env host username password command use_sudo).ret = 1 ∧
    (run_ssh_command env host username password command use_sudo).stderrEvents =
      [errTag ++ e] ∧
    errTag <+: errTag ++ e := by
  unfold run_ssh_command
  rw [hc]
  exact ⟨rfl, rfl, rfl, ⟨e, rfl⟩⟩

theorem connect_failure_no_exec_witness :
    (run_ssh_command (envDown (("unreachable").toList)) HOST USER PASS
        (("ls").toList) true).execCalls = [] ∧
    (run_ssh_command (envDown (("unreachable").toList)) HOST USER PASS
        (("ls").toList) true).ret = 1 ∧
    (run_ssh_command (envDown (("unreachable").toList)) HOST USER PASS
        (("ls").toList) true).stderrEvents = [errTag ++ ("unreachable").toList] ∧
    errTag <+: errTag ++ ("unreachable").toList :=
  connect_failure_no_exec (envDown (("unreachable").toList)) HOST USER PASS
    (("ls").toList) true (("unreachable").toList) rfl

/-- Captured stdout used by witnesses: a sudo prompt between two real lines. -/
def outW : Str := ("ok\n[sudo] password for admin\ndone").toList

/-- Captured stderr used by witnesses. -/
def errW : Str := ("warn").toList

/-- C3: on the success path, every text reported on either channel equals the
split-discard-rejoin filter of the corresponding captured stream, no line of a
reported text begins with the sudo marker, and the kept lines form a sublist of
the captured lines, so their relative order is preserved. -/
theorem reported_streams_sudo_filtered (env : Env)
    (host username password command : Str) (use_sudo : Bool)
    (out err : Str) (st : Int) (hc : env.connect = .ok ())
    (hE : env.exec (rewritten password command use_sudo) use_sudo =
      .ok (out, err, st)) :
    (∀ e ∈ (run_ssh_command env host username password command use_sudo).stdoutEvents,
      e = filterSudo out ∧ ∀ l ∈ splitNl e, isSudoLine l = false) ∧
    (∀ e ∈ (run_ssh_command env host username password command use_sudo).stderrEvents,
      e = filterSudo err ∧ ∀ l ∈ splitNl e, isSudoLine l = false) ∧
    List.Sublist (keptLines out) (splitNl out) ∧ List.Sublist (keptLines err) (splitNl err) := by
  unfold run_ssh_command
  rw [hc, hE]
  dsimp only
  refine ⟨?_, ?_, List.filter_sublist _, List.filter_sublist _⟩
  · intro e he
    by_cases ho : out = []
    · simp [ho] at he
    · rw [if_neg ho] at he
      rw [List.mem_singleton] at he
      subst he
      exact ⟨rfl, noSudoLine_filterSudo out⟩
  · intro e he
    by_cases h1 : err = []
    · simp [h1] at he
    · rw [if_neg h1] at he
      by_cases h2 : keptLines err = []
      · simp [h2] at he
      · rw [if_neg h2, List.mem_singleton] at he
        subst he
        exact ⟨rfl, noSudoLine_filterSudo err⟩

theorem reported_streams_sudo_filtered_witness :
    (∀ e ∈ (run_ssh_command (envOk outW errW 0) HOST USER PASS
        (("ls").toList) true).stdoutEvents,
      e = filterSudo outW ∧ ∀ l ∈ splitNl e, isSudoLine l = false) ∧
    (∀ e ∈ (run_ssh_command (envOk outW errW 0) HOST USER PASS
        (("ls").toList) true).stderrEvents,
      e = filterSudo errW ∧ ∀ l ∈ splitNl e, isSudoLine l = false) ∧
    List.Sublist (keptLines outW) (splitNl outW) ∧ List.Sublist (keptLines errW) (splitNl errW) :=
  reported_streams_sudo_filtered (envOk outW errW 0) HOST USER PASS
    (("ls").toList) true outW errW 0 rfl rfl

/-- C4 as stated fails on the code: a captured stdout consisting of a single
sudo prompt line has an empty filtered text, yet a print event still occurs on
the normal output channel, because the source guards the print on the raw
stream being non-empty, not the filtered one. -/
theorem stdout_emit_condition_cex :
    filterSudo (("[sudo] password for admin:").toList) = [] ∧
    (run_ssh_command (envOk (("[sudo] password for admin:").toList) [] 0) HOST
        USER PASS (("ls").toList) true).stdoutEvents ≠ [] := by
  decide

/-- C4 amended: the filtered stdout is written, as one print event, iff the raw
captured stdout is non-empty (so a stdout of only sudo prompts still produces
one print of the empty string); the filtered stderr is written iff the raw
stderr is non-empty and at least one line survives the filter; in particular a
captured stderr whose lines all begin with the sudo marker produces no write on
the error channel at all. -/
theorem stream_emission_conditions (env : Env)
    (host username password command : Str) (use_sudo : Bool)
    (out err : Str) (st : Int) (hc : env.connect = .ok ())
    (hE : env.exec (rewritten password command use_sudo) use_sudo =
      .ok (out, err, st)) :
    ((run_ssh_command env host username password command use_sudo).stdoutEvents =
      if out = [] then [] else [filterSudo out]) ∧
    ((run_ssh_command env host username password command use_sudo).stderrEvents =
      if err = [] ∨ keptLines err = [] then [] else [filterSudo err]) ∧
    ((∀ l ∈ splitNl err, isSudoLine l = true) →
      (run_ssh_command env host username password command use_sudo).stderrEvents = []) := by
  unfold run_ssh_command
  rw [hc, hE]
  dsimp only
  refine ⟨rfl, ?_, ?_⟩
  · by_cases h1 : err = []
    · simp [h1]
    · by_cases h2 : keptLines err = []
      · simp [h1, h2]
      · simp [h1, h2]
  · intro hall
    have hk : keptLines err = [] := by
      unfold keptLines
      rw [List.filter_eq_nil_iff]
      intro a ha
      simp [hall a ha]
    by_cases h1 : err = [] <;> simp [h1, hk]

theorem stream_emission_conditions_witness :
    ((run_ssh_command (envOk outW (("[sudo] a").toList) 0) HOST USER PASS
        (("ls").toList) true).stdoutEvents =
      if outW = [] then [] else [filterSudo outW]) ∧
    ((run_ssh_command (envOk outW (("[sudo] a").toList) 0) HOST USER PASS
        (("ls").toList) true).stderrEvents =
      if ("[sudo] a").toList = [] ∨ keptLines (("[sudo] a").toList) = [] then []
      else [filterSudo (("[sudo] a").toList)]) ∧
    ((∀ l ∈ splitNl (("[sudo] a").toList), isSudoLine l = true) →
      (run_ssh_command (envOk outW (("[sudo] a").toList) 0) HOST USER PASS
        (("ls").toList) true).stderrEvents = []) :=
  stream_emission_conditions (envOk outW (("[sudo] a").toList) 0) HOST USER PASS
    (("ls").toList) true outW (("[sudo] a").toList) 0 rfl rfl

/-- Program name used as the head of argv in CLI theorems. -/
def progName : Str := ("ssh_cmd.py").toList

/-- C8 as stated fails on the code: an argument list of just the sudo flag is
empty after removing the flag, yet no usage message is printed anywhere and the
runner is invoked with the empty command and escalation on, because the source
tests the argument count before removing the flag; moreover when the usage
message is printed, on the genuinely empty argument list, it goes to the normal
output channel and not to the error channel. -/
theorem usage_check_cex :
    (main_entry (envDown (("x").toList)) progName [sudoFlag]).runnerCalls =
      [(([] : Str), true)] ∧
    usageMsg ∉ (main_entry (envDown (("x").toList)) progName [sudoFlag]).stdoutEvents ∧
    usageMsg ∉ (main_entry (envDown (("x").toList)) progName [sudoFlag]).stderrEvents ∧
    (main_entry (envDown (("x").toList)) progName []).stdoutEvents = [usageMsg] ∧
    (main_entry (envDown (("x").toList)) progName []).stderrEvents = [] := by
  decide

/-- C8 amended: the usage path triggers exactly on an argument list that is
empty before flag removal; then the usage message is printed to the normal
output channel, nothing goes to the error channel, the exit status is 1 and the
runner is not invoked. An argument list of just the flag skips the usage path
and invokes the runner with the empty command and escalation requested. -/
theorem usage_on_empty_args (env : Env) (prog : Str) :
    (main_entry env prog []).stdoutEvents = [usageMsg] ∧
    (main_entry env prog []).stderrEvents = [] ∧
    (main_entry env prog []).exitCode = 1 ∧
    (main_entry env prog []).runnerCalls = [] ∧
    (main_entry env prog [sudoFlag]).runnerCalls = [(([] : Str), true)] := by
  refine ⟨rfl, rfl, rfl, rfl, ?_⟩
  have hm : sudoFlag ∈ prog :: [sudoFlag] :=
    List.mem_cons_of_mem _ (List.mem_singleton.mpr rfl)
  simp [main_entry, hm, joinWith]

/-- C9: with a non-empty argument list and a program name other than the flag
word: if the flag occurs among the arguments the runner is invoked once, with
escalation requested and the command equal to the space-join of the arguments
with every flag occurrence removed; if the flag does not occur, escalation is
not requested and the command is the space-join of all the arguments. -/
theorem cli_sudo_flag_parsing (env : Env) (prog : Str) (args : List Str)
    (hp : prog ≠ sudoFlag) (ha : args ≠ []) :
    (sudoFlag ∈ args →
      (main_entry env prog args).runnerCalls =
        [(joinWith ' ' (args.filter (fun a => a ≠ sudoFlag)), true)]) ∧
    (sudoFlag ∉ args →
      (main_entry env prog args).runnerCalls = [(joinWith ' ' args, false)]) := by
  unfold main_entry
  rw [if_neg ha]
  dsimp only
  constructor
  · intro hm
    have hd : decide (sudoFlag ∈ prog :: args) = true := by
      simp [List.mem_cons, hm]
    rw [hd]
  · intro hm
    have hd : decide (sudoFlag ∈ prog :: args) = false := by
      simp only [decide_eq_false_iff_not, List.mem_cons, not_or]
      exact ⟨fun h => hp h.symm, hm⟩
    rw [hd]
    have hf : args.filter (fun a => a ≠ sudoFlag) = args := by
      rw [List.filter_eq_self]
      intro a haa
      simp only [decide_eq_true_eq]
      exact fun h => hm (h ▸ haa)
    rw [hf]

theorem cli_sudo_flag_parsing_witness :
    (sudoFlag ∈ [("whoami").toList, sudoFlag] →
      (main_entry (envOk [] [] 0) progName [("whoami").toList, sudoFlag]).runnerCalls =
        [(joinWith ' ' ([("whoami").toList, sudoFlag].filter (fun a => a ≠ sudoFlag)),
          true)]) ∧
    (sudoFlag ∉ [("whoami").toList, sudoFlag] →
      (main_entry (envOk [] [] 0) progName [("whoami").toList, sudoFlag]).runnerCalls =
        [(joinWith ' ' [("whoami").toList, sudoFlag], false)]) :=
  cli_sudo_flag_parsing (envOk [] [] 0) progName [("whoami").toList, sudoFlag]
    (by decide) (by decide)

end SshCmd
